import Mathlib

/-!
StatEase: verification of the test-selection and analysis frontend.

Shallow embedding of the StatEase frontend sources:
* `AnalysisSelection` (src/unnamed/part_000): the `statisticalTests` registry,
  `handleTestSelect`, `handleVariableSelect`, `handleRunTest`, `getAvailableTests`;
* `App.tsx`: `handleAnalyze`;
* `FileUpload.tsx`: `processFile`;
* `AnalysisResults.tsx`: the `renderResults` switch on the result tag.

JavaScript strings become `String`, arrays become `List`, the `columnTypes`
object becomes an association list (`Object.entries` order), and React state
updates become explicit state passing on a record of the component's state
variables.
-/

namespace Statease

/-- Embedding of `StatisticalTest.requirements` from `src/Frontend/src/types/analysis.ts`:
`variables` is a JS number that is `-1` for unbounded arity, hence `Int`. -/
structure Requirements where
  «variables» : Int
  variableTypes : List String
  dataRequirements : List String
deriving DecidableEq, Repr

/-- Embedding of `StatisticalTest` from `src/Frontend/src/types/analysis.ts`.  The
`category` union type is embedded as `String`, the literal used in the
registry data. -/
structure StatisticalTest where
  id : String
  name : String
  description : String
  category : String
  requirements : Requirements
deriving DecidableEq, Repr

/-- Embedding of `VariableSelection` from `src/Frontend/src/types/analysis.ts`;
the optional `groupVariable` becomes `Option String`. -/
structure VariableSelection where
  testId : String
  «variables» : List String
  groupVariable : Option String
deriving DecidableEq, Repr

/-- The `statisticalTests` module-level array of `AnalysisSelection`
(src/unnamed/part_000, lines 9–120), entry for entry. -/
def statisticalTests : List StatisticalTest :=
  [ { id := "independent_t", name := "Independent t-test",
      description := "Compare means between two independent groups",
      category := "comparison",
      requirements := {
        «variables» := 2,
        variableTypes := ["numeric", "categorical"],
        dataRequirements := ["Normality", "Equal variances"] } },
    { id := "paired_t", name := "Paired t-test",
      description := "Compare means from the same group at different times",
      category := "comparison",
      requirements := {
        «variables» := 2,
        variableTypes := ["numeric", "numeric"],
        dataRequirements := ["Normality", "Paired measurements"] } },
    { id := "anova", name := "One-way ANOVA",
      description := "Compare means between three or more groups",
      category := "comparison",
      requirements := {
        «variables» := 2,
        variableTypes := ["numeric", "categorical"],
        dataRequirements := ["Normality", "Equal variances", "Independence"] } },
    { id := "pearson", name := "Pearson Correlation",
      description := "Measure linear relationship between two continuous variables",
      category := "correlation",
      requirements := {
        «variables» := 2,
        variableTypes := ["numeric", "numeric"],
        dataRequirements := ["Linear relationship", "Normality"] } },
    { id := "spearman", name := "Spearman Correlation",
      description := "Measure monotonic relationship between two variables",
      category := "correlation",
      requirements := {
        «variables» := 2,
        variableTypes := ["numeric", "numeric"],
        dataRequirements := ["Monotonic relationship"] } },
    { id := "chi_square", name := "Chi-square Test",
      description := "Test association between categorical variables",
      category := "nonparametric",
      requirements := {
        «variables» := 2,
        variableTypes := ["categorical", "categorical"],
        dataRequirements := ["Expected frequencies >5"] } },
    { id := "linear_regression", name := "Linear Regression",
      description := "Predict continuous outcome based on predictor variables",
      category := "regression",
      requirements := {
        «variables» := -1,
        variableTypes := ["numeric", "numeric"],
        dataRequirements := ["Linearity", "Independence", "Homoscedasticity", "Normality"] } },
    { id := "mann_whitney", name := "Mann-Whitney U Test",
      description := "Non-parametric alternative to independent t-test",
      category := "nonparametric",
      requirements := {
        «variables» := 2,
        variableTypes := ["numeric", "categorical"],
        dataRequirements := ["Ordinal data or non-normal distributions"] } },
    { id := "shapiro_wilk", name := "Shapiro-Wilk Test",
      description := "Test for normality of data distribution",
      category := "normality",
      requirements := {
        «variables» := 1,
        variableTypes := ["numeric"],
        dataRequirements := ["Continuous data"] } },
    { id := "levene", name := "Levene\x27s Test",
      description := "Test for equality of variances between groups",
      category := "normality",
      requirements := {
        «variables» := 2,
        variableTypes := ["numeric", "categorical"],
        dataRequirements := ["Continuous dependent variable"] } } ]

/-- The three `useState` variables of the `AnalysisSelection` component
(src/unnamed/part_000, lines 123–125). -/
structure SelState where
  selectedTest : String
  selectedVariables : List String
  groupVariable : String
deriving DecidableEq, Repr

/-- Initial component state: `useState('')`, `useState([])`, `useState('')`. -/
def initialSelState : SelState :=
  { selectedTest := "", selectedVariables := [], groupVariable := "" }

/-- Embedding of `handleTestSelect` (src/unnamed/part_000, lines 137–141). -/
def handleTestSelect (_s : SelState) (testId : String) : SelState :=
  { selectedTest := testId, selectedVariables := [], groupVariable := "" }

/-- Embedding of `handleVariableSelect` (src/unnamed/part_000, lines 143–154).
`statisticalTests.find(t => t.id === selectedTest)` is `List.find?`;
the JS guard `length < (vars === -1 ? Infinity : vars)` becomes the
disjunction `vars = -1 ∨ length < vars` over `Int`. -/
def handleVariableSelect (s : SelState) (v : String) : SelState :=
  match statisticalTests.find? (fun t => t.id == s.selectedTest) with
  | none => s
  | some t =>
    if t.requirements.«variables» = 1 then
      { s with selectedVariables := [v] }
    else if s.selectedVariables.contains v then
      { s with selectedVariables := s.selectedVariables.filter (fun x => x != v) }
    else if t.requirements.«variables» = -1 ∨
        (s.selectedVariables.length : Int) < t.requirements.«variables» then
      { s with selectedVariables := s.selectedVariables ++ [v] }
    else s

/-- Embedding of `handleRunTest` (src/unnamed/part_000, lines 156–166): returns the
`VariableSelection` passed to `onTestSelect`, or `none` when the guard
`!selectedTest || selectedVariables.length === 0` makes it return early.
`groupVariable || undefined` maps the empty string to `none`. -/
def handleRunTest (s : SelState) : Option VariableSelection :=
  if s.selectedTest = "" ∨ s.selectedVariables = [] then none
  else some { testId := s.selectedTest,
              «variables» := s.selectedVariables,
              groupVariable := if s.groupVariable = "" then none else some s.groupVariable }

/-- Embedding of `numericColumns` (src/unnamed/part_000, lines 127–129); `columnTypes`
is the `Object.entries` view of the prop, an ordered association list. -/
def numericColumns (columnTypes : List (String × String)) : List String :=
  (columnTypes.filter (fun p => p.2 == "numeric")).map (fun p => p.1)

/-- Embedding of `categoricalColumns` (src/unnamed/part_000, lines 131–133). -/
def categoricalColumns (columnTypes : List (String × String)) : List String :=
  (columnTypes.filter (fun p => p.2 == "categorical")).map (fun p => p.1)

/-- Embedding of `getAvailableTests` (src/unnamed/part_000, lines 168–178). -/
def getAvailableTests (columnTypes : List (String × String)) : List StatisticalTest :=
  statisticalTests.filter (fun test =>
    let hasNumeric := (numericColumns columnTypes).length > 0
    let hasCategorical := (categoricalColumns columnTypes).length > 0
    if test.requirements.variableTypes.contains "numeric" && !hasNumeric then false
    else if test.requirements.variableTypes.contains "categorical" && !hasCategorical then false
    else true)

/-- The view discriminator of `App.tsx` (`useState<'upload' | 'analysis' | 'results'>`). -/
inductive View
  | upload
  | analysis
  | results
deriving DecidableEq, Repr

/-- The `App.tsx` state touched by `handleAnalyze`, over an abstract payload
type `ρ` for the backend's results object. -/
structure AppState (ρ : Type) where
  currentView : View
  analysisResults : Option ρ
  isAnalyzing : Bool
  analysisSelection : Option VariableSelection
deriving DecidableEq, Repr

/-- Shape of the `/analyze` HTTP response body as read by `handleAnalyze`
(`response.data.success`, `response.data.results`). -/
structure AnalyzeResponse (ρ : Type) where
  success : Bool
  results : ρ
deriving DecidableEq, Repr

/-- Embedding of `handleAnalyze` (src/Frontend/src/App.tsx, lines 56–77).
The awaited `axios.post` is passed in as an `Except`: `Except.error` is the
`catch` path (which only raises an alert), `Except.ok` the resolved response.
`setIsAnalyzing`/`setAnalysisSelection` model the unconditional updates, and
the `finally` block resets `isAnalyzing`. -/
def handleAnalyze {ρ : Type} (st : AppState ρ) (selection : VariableSelection)
    (resp : Except String (AnalyzeResponse ρ)) : AppState ρ :=
  let st1 := { st with isAnalyzing := true, analysisSelection := some selection }
  match resp with
  | Except.error _ => { st1 with isAnalyzing := false }
  | Except.ok r =>
    if r.success then
      { st1 with analysisResults := some r.results,
                 currentView := View.results,
                 isAnalyzing := false }
    else
      { st1 with isAnalyzing := false }

/-- The `acceptedTypes` array of `FileUpload.tsx` (lines 25–30). -/
def acceptedTypes : List String :=
  [ ".csv",
    ".xlsx",
    "application/vnd.openxmlformats-officedocument.spreadsheetml.sheet",
    "text/csv" ]

/-- A browser `File` as used by `processFile`: its `name`, MIME `type`
and `size` in bytes. -/
structure JSFile where
  name : String
  type : String
  size : Nat
deriving DecidableEq, Repr

/-- Outcome of `processFile`: either `setUploadError(message)` followed by an
early return, or reaching `setSelectedFile` + `await uploadFile(file)`. -/
inductive ProcessOutcome
  | error (message : String)
  | upload
deriving DecidableEq, Repr

/-- Embedding of JS `name.split('.')` on the character list: splitting on a
dot, yielding `[""]` on the empty string exactly as JS `split` does. -/
def splitOnDot : List Char → List (List Char)
  | [] => [[]]
  | c :: rest =>
    match splitOnDot rest with
    | [] => [[]]
    | h :: t => if c = '.' then [] :: h :: t else (c :: h) :: t

/-- Embedding of JS `toLowerCase` on a character (ASCII case mapping, the
only range exercised by file extensions). -/
def lowerChar (c : Char) : Char :=
  if 65 ≤ c.toNat ∧ c.toNat ≤ 90 then Char.ofNat (c.toNat + 32) else c

/-- Embedding of `file.name.split('.').pop()?.toLowerCase()` from
`processFile`: JS `split` always yields a non-empty array, so `pop` never
returns `undefined`. -/
def fileExtension (name : String) : String :=
  String.mk (((splitOnDot name.data).getLastD []).map lowerChar)

/-- Embedding of `processFile` (src/Frontend/src/components/FileUpload.tsx,
lines 59–82). -/
def processFile (f : JSFile) : ProcessOutcome :=
  if !acceptedTypes.contains ("." ++ fileExtension f.name) && !acceptedTypes.contains f.type then
    ProcessOutcome.error "Please upload a CSV or XLSX file only."
  else if f.size > 10 * 1024 * 1024 then
    ProcessOutcome.error "File size must be less than 10MB. For larger files, please use sample mode."
  else
    ProcessOutcome.upload

/-- The branches of the `renderResults` switch in
`src/Frontend/src/components/AnalysisResults.tsx` (lines 17–135), one
constructor per returned JSX block; `pearson_correlation` and
`spearman_correlation` share a fall-through branch, and `unknownTestType`
is the `default:` branch rendering the text shown for an unknown test type. -/
inductive RenderCase
  | independentTTest
  | pairedTTest
  | oneWayAnova
  | correlation
  | chiSquareTest
  | shapiroWilkTest
  | leveneTest
  | unknownTestType
deriving DecidableEq, Repr

/-- Embedding of the `switch (results.test)` dispatch of `renderResults`
(src/Frontend/src/components/AnalysisResults.tsx, lines 17–135), mapping the
result tag to the branch taken. -/
def renderResults (tag : String) : RenderCase :=
  if tag = "independent_t_test" then RenderCase.independentTTest
  else if tag = "paired_t_test" then RenderCase.pairedTTest
  else if tag = "one_way_anova" then RenderCase.oneWayAnova
  else if tag = "pearson_correlation" ∨ tag = "spearman_correlation" then RenderCase.correlation
  else if tag = "chi_square_test" then RenderCase.chiSquareTest
  else if tag = "shapiro_wilk_test" then RenderCase.shapiroWilkTest
  else if tag = "levene_test" then RenderCase.leveneTest
  else RenderCase.unknownTestType

/-- Modelled from the spec: the backend ResultSerializer (§4.6, "a `kind`
discriminator equal to the test id's canonical result tag") is not under
src/ — only its consumer `renderResults` is.  For the eight test kinds the
consumer renders, the canonical tag is the one its switch matches on; for
linear regression and the Mann-Whitney U test, which the consumer does not
render, the tag follows the same naming scheme applied to the spec's §4.3
test names.  Per §4.6 the tags are pairwise distinct. -/
def canonicalTag (testId : String) : String :=
  if testId = "independent_t" then "independent_t_test"
  else if testId = "paired_t" then "paired_t_test"
  else if testId = "anova" then "one_way_anova"
  else if testId = "pearson" then "pearson_correlation"
  else if testId = "spearman" then "spearman_correlation"
  else if testId = "chi_square" then "chi_square_test"
  else if testId = "linear_regression" then "linear_regression"
  else if testId = "mann_whitney" then "mann_whitney_u_test"
  else if testId = "shapiro_wilk" then "shapiro_wilk_test"
  else if testId = "levene" then "levene_test"
  else testId

/-- Modelled from the spec: the backend analysis engine (AssumptionChecker,
TestDispatcher and StatisticsLibrary of §2/§4) is not under src/ — only its
frontend callers are.  A dataset cell is a scalar per §3: numeric (embedded
as `ℚ`, the exactly-representable fragment), categorical, or missing. -/
inductive Scalar
  | num (q : ℚ)
  | cat (s : String)
  | missing
deriving DecidableEq, Repr

/-- Modelled from the spec (§3): a dataset is an ordered sequence of rows
mapping column names to scalar values, plus a column-name→declared-type map. -/
structure Dataset where
  rows : List (List (String × Scalar))
  columnTypes : List (String × String)
deriving DecidableEq, Repr

/-- Value of column `c` in a row; an absent entry counts as missing. -/
def cellValue (row : List (String × Scalar)) (c : String) : Scalar :=
  match row.lookup c with
  | some v => v
  | none => Scalar.missing

/-- Modelled from the spec (§4.2, missing-value policy): listwise deletion
scoped to the variables actually used by the test. -/
def completeRows (d : Dataset) (cs : List String) : List (List (String × Scalar)) :=
  d.rows.filter (fun r => cs.all (fun c => cellValue r c != Scalar.missing))

/-- Numeric values of column `c` over the given rows. -/
def numericValues (rows : List (List (String × Scalar))) (c : String) : List ℚ :=
  rows.filterMap (fun r =>
    match cellValue r c with
    | Scalar.num q => some q
    | _ => none)

/-- Categorical labels of column `c` over the given rows. -/
def catValues (rows : List (List (String × Scalar))) (c : String) : List String :=
  rows.filterMap (fun r =>
    match cellValue r c with
    | Scalar.cat s => some s
    | _ => none)

/-- Arithmetic mean (0 on the empty list, never reached behind the
minimum-size guards). -/
def mean (xs : List ℚ) : ℚ := xs.sum / xs.length

/-- Sum of squared deviations from the mean. -/
def sumSqDev (xs : List ℚ) : ℚ := (xs.map (fun x => (x - mean xs) ^ 2)).sum

/-- Numeric values of column `v` restricted to the rows whose group column
`g` carries the categorical label `label`. -/
def groupValues (rows : List (List (String × Scalar))) (v g label : String) : List ℚ :=
  numericValues (rows.filter (fun r => cellValue r g == Scalar.cat label)) v

/-- Modelled from the spec (§7): the error taxonomy of the engine. -/
inductive AnalysisError
  | validationError (message : String)
  | insufficientData (message : String)
  | numericalError (message : String)
deriving DecidableEq, Repr

/-- Modelled from the spec (§3/§4.3): the per-test result variants covered by
this model — the fields that are exactly representable (statistics and degrees
of freedom; p-values require real-valued distribution functions and are
outside the rational fragment). -/
inductive TestResult
  | anovaResult (f_statistic : ℚ) (df_between : Nat) (df_within : Nat)
  | chiSquareResult (chi2 : ℚ) (df : Nat) (n : Nat)
deriving DecidableEq, Repr

/-- Modelled from the spec (§4.3, one-way ANOVA): classic between/within
sum-of-squares decomposition, `F = MS_between / MS_within`,
`df_between = k−1`, `df_within = N−k`; zero within-group variance is a
NumericalError (§7), group minima per §4.2. -/
def anovaCompute (d : Dataset) (v g : String) : Except AnalysisError TestResult :=
  let rows := completeRows d [v, g]
  let labels := (catValues rows g).dedup
  let groups := labels.map (fun label => groupValues rows v g label)
  if labels.length < 2 then
    Except.error (AnalysisError.insufficientData "fewer than 2 groups")
  else if groups.any (fun xs => xs.length < 3) then
    Except.error (AnalysisError.insufficientData "a group has fewer than 3 observations")
  else
    let n := (groups.map List.length).sum
    let k := labels.length
    let grand := mean groups.flatten
    let ssb := (groups.map (fun xs => (xs.length : ℚ) * (mean xs - grand) ^ 2)).sum
    let ssw := (groups.map sumSqDev).sum
    if ssw = 0 then
      Except.error (AnalysisError.numericalError "zero within-group variance")
    else
      Except.ok (TestResult.anovaResult
        ((ssb / ((k : ℚ) - 1)) / (ssw / ((n : ℚ) - (k : ℚ)))) (k - 1) (n - k))

/-- Modelled from the spec (§4.3, chi-square test of independence): observed
contingency table, expected counts `row×col/grand`, `χ² = Σ(o−e)²/e`,
`df = (rows−1)(cols−1)`; a table without two non-empty rows and columns is
rejected per §4.2. -/
def chiSquareCompute (d : Dataset) (a b : String) : Except AnalysisError TestResult :=
  let rows := completeRows d [a, b]
  let pairs := rows.filterMap (fun r =>
    match cellValue r a, cellValue r b with
    | Scalar.cat x, Scalar.cat y => some (x, y)
    | _, _ => none)
  let ra := (pairs.map (fun p => p.1)).dedup
  let cb := (pairs.map (fun p => p.2)).dedup
  let n := pairs.length
  if ra.length < 2 ∨ cb.length < 2 then
    Except.error (AnalysisError.insufficientData "contingency table needs two non-empty rows and columns")
  else
    let observed := fun x y => ((pairs.filter (fun p => p == (x, y))).length : ℚ)
    let rowTotal := fun x => ((pairs.filter (fun p => p.1 == x)).length : ℚ)
    let colTotal := fun y => ((pairs.filter (fun p => p.2 == y)).length : ℚ)
    let expected := fun x y => rowTotal x * colTotal y / (n : ℚ)
    let chi2 := (ra.map (fun x =>
      (cb.map (fun y => (observed x y - expected x y) ^ 2 / expected x y)).sum)).sum
    Except.ok (TestResult.chiSquareResult chi2 ((ra.length - 1) * (cb.length - 1)) n)

/-- Decidable equality of engine outcomes, for evaluating the model on
concrete inputs. -/
instance : DecidableEq (Except AnalysisError TestResult) := fun x y =>
  match x, y with
  | Except.ok a, Except.ok b =>
    if h : a = b then isTrue (by rw [h])
    else isFalse (fun hc => h (by injection hc))
  | Except.error a, Except.error b =>
    if h : a = b then isTrue (by rw [h])
    else isFalse (fun hc => h (by injection hc))
  | Except.ok _, Except.error _ => isFalse (fun hc => by injection hc)
  | Except.error _, Except.ok _ => isFalse (fun hc => by injection hc)

/-- Modelled from the spec (§4.2 checks 1–2 and §4.3 dispatch): validate the
selection against the registry, then dispatch to the computation routine —
a pure function of `(dataset, selection)` with no other inputs.  The model
covers the two test kinds whose §4.3 result fields are exactly representable;
the remaining registered ids take the same validated path and report that the
routine is outside the rational fragment. -/
def analyze (d : Dataset) (sel : VariableSelection) : Except AnalysisError TestResult :=
  match statisticalTests.find? (fun t => t.id == sel.testId) with
  | none => Except.error (AnalysisError.validationError "unknown test id")
  | some t =>
    if ¬((t.requirements.«variables» = -1 ∧ 2 ≤ sel.«variables».length) ∨
        (sel.«variables».length : Int) = t.requirements.«variables») then
      Except.error (AnalysisError.validationError "wrong variable count")
    else if t.id = "anova" then
      match sel.«variables» with
      | [v, g] => anovaCompute d v g
      | _ => Except.error (AnalysisError.validationError "wrong variable count")
    else if t.id = "chi_square" then
      match sel.«variables» with
      | [a, b] => chiSquareCompute d a b
      | _ => Except.error (AnalysisError.validationError "wrong variable count")
    else
      Except.error (AnalysisError.validationError "computation routine outside the modelled fragment")

/-- Reachable states of the `AnalysisSelection` component for a fixed
`columnTypes` prop.  The only state updates in the component are the
`onClick`/`onChange` handlers: test cards invoke `handleTestSelect` and are
rendered only for `availableTests` entries (src/unnamed/part_000, lines
191–199), and variable checkboxes invoke `handleVariableSelect`
(`handleRunTest` reads but never writes state). -/
inductive Reachable (columnTypes : List (String × String)) : SelState → Prop
  | init : Reachable columnTypes initialSelState
  | testSelect {s : SelState} (testId : String) :
      Reachable columnTypes s →
      testId ∈ (getAvailableTests columnTypes).map StatisticalTest.id →
      Reachable columnTypes (handleTestSelect s testId)
  | varSelect {s : SelState} (v : String) :
      Reachable columnTypes s →
      Reachable columnTypes (handleVariableSelect s v)

/-- State invariant of the selection component: the selected variables are
duplicate-free, the selected test id is empty or registered, and for a
selected test of fixed (non `-1`) arity the selection size never exceeds
that arity. -/
def SelInv (s : SelState) : Prop :=
  s.selectedVariables.Nodup ∧
  (s.selectedTest = "" ∨ s.selectedTest ∈ statisticalTests.map StatisticalTest.id) ∧
  ∀ t : StatisticalTest,
    statisticalTests.find? (fun u => u.id == s.selectedTest) = some t →
    t.requirements.«variables» ≠ -1 →
    (s.selectedVariables.length : Int) ≤ t.requirements.«variables»

/-- Registry entry 0, the independent t-test (fixed arity 2). -/
def independentTSpec : StatisticalTest := statisticalTests.get ⟨0, by decide⟩

/-- Registry entry 3, the Pearson correlation (fixed arity 2). -/
def pearsonSpec : StatisticalTest := statisticalTests.get ⟨3, by decide⟩

/-- Registry entry 2, the one-way ANOVA (fixed arity 2). -/
def anovaSpec : StatisticalTest := statisticalTests.get ⟨2, by decide⟩

/-- Registry entry 6, linear regression (unbounded arity, `variables: -1`). -/
def linearRegressionSpec : StatisticalTest := statisticalTests.get ⟨6, by decide⟩

/-- Registry entry 8, the Shapiro-Wilk test (fixed arity 1). -/
def shapiroWilkSpec : StatisticalTest := statisticalTests.get ⟨8, by decide⟩

/-- Example `columnTypes` prop with one numeric and one categorical column. -/
def ctEx : List (String × String) := [("score", "numeric"), ("group", "categorical")]

/-- Component state after choosing the independent t-test and ticking a
single variable. -/
def sEx : SelState :=
  handleVariableSelect (handleTestSelect initialSelState "independent_t") "score"

/-- Selection emitted by `handleRunTest` from `sEx`: one variable for an
arity-2 test. -/
def emittedEx : VariableSelection :=
  { testId := "independent_t", «variables» := ["score"], groupVariable := none }

/-- Component state after choosing the independent t-test and ticking both
columns. -/
def sFullEx : SelState :=
  handleVariableSelect (handleVariableSelect
    (handleTestSelect initialSelState "independent_t") "score") "group"

/-- Selection emitted by `handleRunTest` from `sFullEx`. -/
def emittedFullEx : VariableSelection :=
  { testId := "independent_t", «variables» := ["score", "group"], groupVariable := none }

/-- Component state right after choosing the independent t-test. -/
def s9Ex : SelState := handleTestSelect initialSelState "independent_t"

/-- Example `App` state before an analysis request. -/
def appStEx : AppState Nat :=
  { currentView := View.analysis, analysisResults := none,
    isAnalyzing := false, analysisSelection := none }

/-- Example selection sent with an analysis request. -/
def selPearsonEx : VariableSelection :=
  { testId := "pearson", «variables» := ["height", "weight"], groupVariable := none }

/-- A CSV file one byte over the 10MB bound. -/
def fileBigEx : JSFile := { name := "data.csv", type := "text/csv", size := 10 * 1024 * 1024 + 1 }

/-- A small CSV file. -/
def fileOkEx : JSFile := { name := "data.csv", type := "text/csv", size := 2048 }

/-- Example dataset: numeric column `y`, categorical column `g`, two groups
of three observations. -/
def dEx : Dataset :=
  { rows := [ [("y", Scalar.num 1), ("g", Scalar.cat "a")],
              [("y", Scalar.num 2), ("g", Scalar.cat "a")],
              [("y", Scalar.num 3), ("g", Scalar.cat "a")],
              [("y", Scalar.num 4), ("g", Scalar.cat "b")],
              [("y", Scalar.num 5), ("g", Scalar.cat "b")],
              [("y", Scalar.num 6), ("g", Scalar.cat "b")] ],
    columnTypes := [("y", "numeric"), ("g", "categorical")] }

/-- Example analysis call: one-way ANOVA of `y` by `g`. -/
def selAnovaEx : VariableSelection :=
  { testId := "anova", «variables» := ["y", "g"], groupVariable := some "g" }

/-! Helper lemmas about the selection handlers. -/

/-- Every registry entry has arity `-1` (unbounded) or a positive fixed arity. -/
theorem registry_fixed_arity_pos :
    ∀ t ∈ statisticalTests,
      t.requirements.«variables» = -1 ∨ 1 ≤ t.requirements.«variables» := by decide

/-- On an unknown test id, `handleVariableSelect` is the identity. -/
theorem handleVariableSelect_of_none {s : SelState} (v : String)
    (h : statisticalTests.find? (fun u => u.id == s.selectedTest) = none) :
    handleVariableSelect s v = s := by
  unfold handleVariableSelect
  rw [h]

/-- Unfolding of `handleVariableSelect` when the selected test resolves. -/
theorem handleVariableSelect_of_found {s : SelState} {t : StatisticalTest} (v : String)
    (h : statisticalTests.find? (fun u => u.id == s.selectedTest) = some t) :
    handleVariableSelect s v =
      if t.requirements.«variables» = 1 then
        { s with selectedVariables := [v] }
      else if s.selectedVariables.contains v then
        { s with selectedVariables := s.selectedVariables.filter (fun x => x != v) }
      else if t.requirements.«variables» = -1 ∨
          (s.selectedVariables.length : Int) < t.requirements.«variables» then
        { s with selectedVariables := s.selectedVariables ++ [v] }
      else s := by
  unfold handleVariableSelect
  rw [h]

/-- `handleVariableSelect` never changes the selected test. -/
theorem handleVariableSelect_selectedTest (s : SelState) (v : String) :
    (handleVariableSelect s v).selectedTest = s.selectedTest := by
  unfold handleVariableSelect
  cases h : statisticalTests.find? (fun u => u.id == s.selectedTest) with
  | none => rfl
  | some t =>
    dsimp only
    split
    · rfl
    split
    · rfl
    split
    · rfl
    · rfl

/-- A step of `handleVariableSelect` preserves the fixed-arity size bound. -/
theorem length_le_handleVariableSelect {s : SelState} {t : StatisticalTest}
    (hfind : statisticalTests.find? (fun u => u.id == s.selectedTest) = some t)
    (hfix : t.requirements.«variables» ≠ -1)
    (hb : (s.selectedVariables.length : Int) ≤ t.requirements.«variables»)
    (v : String) :
    ((handleVariableSelect s v).selectedVariables.length : Int)
      ≤ t.requirements.«variables» := by
  rw [handleVariableSelect_of_found v hfind]
  split
  · next h1 => simp [h1]
  split
  · have hle : ((s.selectedVariables.filter (fun x => x != v)).length : Int)
        ≤ (s.selectedVariables.length : Int) := by
      exact_mod_cast List.length_filter_le _ _
    exact le_trans hle hb
  split
  · next h3 =>
    rcases h3 with h3 | h3
    · exact absurd h3 hfix
    · simp only [List.length_append, List.length_singleton]
      push_cast
      omega
  · exact hb

/-- Ids of available tests are registered ids (`getAvailableTests` filters
the registry). -/
theorem available_mem_registry {columnTypes : List (String × String)} {testId : String}
    (h : testId ∈ (getAvailableTests columnTypes).map StatisticalTest.id) :
    testId ∈ statisticalTests.map StatisticalTest.id := by
  rw [List.mem_map] at h ⊢
  obtain ⟨t, ht, rfl⟩ := h
  refine ⟨t, ?_, rfl⟩
  unfold getAvailableTests at ht
  exact List.mem_of_mem_filter ht

/-- `handleTestSelect` establishes the invariant for any empty-or-registered id. -/
theorem selInv_handleTestSelect (s : SelState) (testId : String)
    (h : testId = "" ∨ testId ∈ statisticalTests.map StatisticalTest.id) :
    SelInv (handleTestSelect s testId) := by
  refine ⟨List.nodup_nil, h, ?_⟩
  intro t hfind hfix
  have hmem := List.mem_of_find?_eq_some hfind
  rcases registry_fixed_arity_pos t hmem with h1 | h1
  · exact absurd h1 hfix
  · simp only [handleTestSelect, List.length_nil]
    omega

/-- `handleVariableSelect` preserves the invariant. -/
theorem selInv_handleVariableSelect {s : SelState} (v : String) (hs : SelInv s) :
    SelInv (handleVariableSelect s v) := by
  obtain ⟨hnd, hreg, hbound⟩ := hs
  refine ⟨?_, ?_, ?_⟩
  · cases hfind : statisticalTests.find? (fun u => u.id == s.selectedTest) with
    | none => rw [handleVariableSelect_of_none v hfind]; exact hnd
    | some t =>
      rw [handleVariableSelect_of_found v hfind]
      split
      · exact List.nodup_singleton v
      split
      · exact hnd.filter _
      split
      · next h2 _ =>
        have hv : v ∉ s.selectedVariables := fun hm => h2 (List.elem_iff.mpr hm)
        refine List.nodup_append.mpr ⟨hnd, List.nodup_singleton v, fun x hx hxv => ?_⟩
        rw [List.mem_singleton] at hxv
        subst hxv
        exact hv hx
      · exact hnd
  · rw [handleVariableSelect_selectedTest]
    exact hreg
  · intro t hfind hfix
    simp only [handleVariableSelect_selectedTest] at hfind
    exact length_le_handleVariableSelect hfind hfix (hbound t hfind hfix) v

/-- Every reachable state of the component satisfies the invariant. -/
theorem selInv_of_reachable {columnTypes : List (String × String)} {s : SelState}
    (h : Reachable columnTypes s) : SelInv s := by
  induction h with
  | init =>
    refine ⟨List.nodup_nil, Or.inl rfl, ?_⟩
    intro t hfind _
    have hn : statisticalTests.find?
        (fun u => u.id == initialSelState.selectedTest) = none := by decide
    rw [hn] at hfind
    cases hfind
  | testSelect testId _ hmem _ =>
    exact selInv_handleTestSelect _ testId (Or.inr (available_mem_registry hmem))
  | varSelect v _ ih =>
    exact selInv_handleVariableSelect v ih

/-- C6: the `statisticalTests` registry is constant module-level data (a
closed `def` in this embedding, which no operation of the program writes);
it has ten entries, their ids are pairwise distinct, and every entry's
category is one of comparison, correlation, regression, nonparametric,
normality. -/
theorem registry_constant_and_wellformed :
    statisticalTests.length = 10 ∧
    (statisticalTests.map StatisticalTest.id).Nodup ∧
    statisticalTests.all (fun t =>
      ["comparison", "correlation", "regression", "nonparametric", "normality"].contains
        t.category) = true := by decide

/-- C2 counterexample: `linear_regression` and `mann_whitney` are registered
test ids whose canonical result tags reach the `default:` branch of
`renderResults` — the claim that no registered test falls through to the
unknown-test-type default is false. -/
theorem renderResults_missing_branches :
    "linear_regression" ∈ statisticalTests.map StatisticalTest.id ∧
    renderResults (canonicalTag "linear_regression") = RenderCase.unknownTestType ∧
    "mann_whitney" ∈ statisticalTests.map StatisticalTest.id ∧
    renderResults (canonicalTag "mann_whitney") = RenderCase.unknownTestType := by decide

/-- C2 (amended): every registered test other than `linear_regression` and
`mann_whitney` has a dedicated (non-default) `renderResults` branch for its
canonical result tag. -/
theorem renderResults_covers_other_tests (t : StatisticalTest)
    (hmem : t ∈ statisticalTests)
    (h1 : t.id ≠ "linear_regression") (h2 : t.id ≠ "mann_whitney") :
    renderResults (canonicalTag t.id) ≠ RenderCase.unknownTestType := by
  have hall : ∀ u ∈ statisticalTests,
      u.id ≠ "linear_regression" → u.id ≠ "mann_whitney" →
      renderResults (canonicalTag u.id) ≠ RenderCase.unknownTestType := by decide
  exact hall t hmem h1 h2

/-- C2 witness: the Pearson correlation entry renders a dedicated branch. -/
theorem renderResults_covers_other_tests_witness :
    renderResults (canonicalTag pearsonSpec.id) ≠ RenderCase.unknownTestType :=
  renderResults_covers_other_tests pearsonSpec (by decide) (by decide) (by decide)

/-- C4: a file larger than `10*1024*1024` bytes makes `processFile` set an
upload error and return without reaching `uploadFile`; a file of an accepted
type at or below that bound reaches `uploadFile`. -/
theorem processFile_size_limit (f : JSFile) :
    (f.size > 10 * 1024 * 1024 →
      (∃ m, processFile f = ProcessOutcome.error m) ∧
      processFile f ≠ ProcessOutcome.upload) ∧
    ((("." ++ fileExtension f.name) ∈ acceptedTypes ∨ f.type ∈ acceptedTypes) →
      f.size ≤ 10 * 1024 * 1024 →
      processFile f = ProcessOutcome.upload) := by
  constructor
  · intro hsize
    by_cases ht : (!acceptedTypes.contains ("." ++ fileExtension f.name) &&
        !acceptedTypes.contains f.type) = true
    · have he : processFile f = ProcessOutcome.error "Please upload a CSV or XLSX file only." := by
        unfold processFile
        rw [if_pos ht]
      exact ⟨⟨_, he⟩, by rw [he]; simp⟩
    · have he : processFile f
          = ProcessOutcome.error "File size must be less than 10MB. For larger files, please use sample mode." := by
        unfold processFile
        rw [if_neg ht, if_pos hsize]
      exact ⟨⟨_, he⟩, by rw [he]; simp⟩
  · intro htype hsize
    have hc1 : ¬((!acceptedTypes.contains ("." ++ fileExtension f.name) &&
        !acceptedTypes.contains f.type) = true) := by
      simp only [Bool.and_eq_true, Bool.not_eq_true', not_and]
      intro h1 h2
      rcases htype with h | h
      · have hx : acceptedTypes.contains ("." ++ fileExtension f.name) = true :=
          List.elem_iff.mpr h
        rw [h1] at hx
        exact absurd hx (by decide)
      · have hx : acceptedTypes.contains f.type = true := List.elem_iff.mpr h
        rw [h2] at hx
        exact absurd hx (by decide)
    unfold processFile
    rw [if_neg hc1, if_neg (by omega : ¬f.size > 10 * 1024 * 1024)]

/-- C4 witness: a 10MB+1 CSV is rejected without upload; a 2KB CSV uploads. -/
theorem processFile_size_limit_witness :
    ((∃ m, processFile fileBigEx = ProcessOutcome.error m) ∧
      processFile fileBigEx ≠ ProcessOutcome.upload) ∧
    processFile fileOkEx = ProcessOutcome.upload :=
  ⟨(processFile_size_limit fileBigEx).1 (by decide),
   (processFile_size_limit fileOkEx).2 (Or.inl (by decide)) (by decide)⟩

/-- C3: when the `/analyze` call errors or its response does not report
success, `handleAnalyze` leaves `analysisResults` and `currentView`
unchanged; `analysisResults` changes only on a successful response, to that
response's results, with the view moving to the results view. -/
theorem handleAnalyze_failure_preserves {ρ : Type} (st : AppState ρ)
    (selection : VariableSelection) (resp : Except String (AnalyzeResponse ρ)) :
    ((∀ r, resp = Except.ok r → r.success = false) →
      (handleAnalyze st selection resp).analysisResults = st.analysisResults ∧
      (handleAnalyze st selection resp).currentView = st.currentView) ∧
    ((handleAnalyze st selection resp).analysisResults ≠ st.analysisResults →
      ∃ r, resp = Except.ok r ∧ r.success = true ∧
        (handleAnalyze st selection resp).analysisResults = some r.results ∧
        (handleAnalyze st selection resp).currentView = View.results) := by
  cases resp with
  | error e => exact ⟨fun _ => ⟨rfl, rfl⟩, fun hne => absurd rfl hne⟩
  | ok r =>
    by_cases hs : r.success = true
    · constructor
      · intro hall
        exact absurd (hall r rfl) (by simp [hs])
      · intro _
        exact ⟨r, rfl, hs, by simp [handleAnalyze, hs], by simp [handleAnalyze, hs]⟩
    · constructor
      · intro _
        constructor <;> simp [handleAnalyze, hs]
      · intro hne
        exfalso
        apply hne
        simp [handleAnalyze, hs]

/-- C3 witness: a failed request leaves results and view unchanged. -/
theorem handleAnalyze_failure_preserves_witness :
    (handleAnalyze appStEx selPearsonEx (Except.error "Failed to run analysis")).analysisResults
        = appStEx.analysisResults ∧
    (handleAnalyze appStEx selPearsonEx (Except.error "Failed to run analysis")).currentView
        = appStEx.currentView :=
  (handleAnalyze_failure_preserves appStEx selPearsonEx
      (Except.error "Failed to run analysis")).1 (fun _ h => nomatch h)

/-- C8 (spec-modelled): the analysis computation is a pure function of the
dataset and the selection — equal inputs give identical results, with no
hidden state to consult. -/
theorem analyze_deterministic (d₁ d₂ : Dataset) (s₁ s₂ : VariableSelection)
    (hd : d₁ = d₂) (hs : s₁ = s₂) : analyze d₁ s₁ = analyze d₂ s₂ := by
  rw [hd, hs]

/-- C8 witness: running the example ANOVA twice gives the same result, and
the engine evaluates on it to `F = 27/2` with 1 and 4 degrees of freedom. -/
theorem analyze_deterministic_witness :
    analyze dEx selAnovaEx = analyze dEx selAnovaEx ∧
    analyze dEx selAnovaEx = Except.ok (TestResult.anovaResult (27 / 2 : ℚ) 1 4) := by
  refine ⟨analyze_deterministic dEx dEx selAnovaEx selAnovaEx rfl rfl, ?_⟩
  have h1 : analyze dEx selAnovaEx = anovaCompute dEx "y" "g" := by
    unfold analyze
    rw [show statisticalTests.find? (fun t => t.id == selAnovaEx.testId)
        = some anovaSpec from by decide]
    dsimp only
    rw [if_neg (by decide), if_pos (by decide)]
    rfl
  rw [h1]
  have h2 : completeRows dEx ["y", "g"] = dEx.rows := by decide
  have h3 : catValues dEx.rows "g" = ["a", "a", "a", "b", "b", "b"] := by decide
  have h4 : (["a", "a", "a", "b", "b", "b"] : List String).dedup = ["a", "b"] := by decide
  have h5 : groupValues dEx.rows "y" "g" "a" = [1, 2, 3] := by decide
  have h6 : groupValues dEx.rows "y" "g" "b" = [4, 5, 6] := by decide
  unfold anovaCompute
  dsimp only
  rw [h2, h3, h4]
  dsimp only [List.map_cons, List.map_nil]
  rw [h5, h6]
  rw [if_neg (by decide), if_neg (by decide)]
  norm_num [mean, sumSqDev, List.sum_cons, List.sum_nil]

/-- C1 counterexample: from the reachable state that selects the independent
t-test (declared arity 2) and ticks a single variable, `handleRunTest` emits
a selection with one variable — the emitted count does not equal the arity. -/
theorem emitted_count_can_undershoot_arity :
    Reachable ctEx sEx ∧
    handleRunTest sEx = some emittedEx ∧
    statisticalTests.find? (fun u => u.id == emittedEx.testId) = some independentTSpec ∧
    independentTSpec.requirements.«variables» = 2 ∧
    emittedEx.«variables».length = 1 := by
  refine ⟨?_, by decide, by decide, by decide, by decide⟩
  exact Reachable.varSelect "score"
    (Reachable.testSelect "independent_t" Reachable.init (by decide))

/-- C1 (amended): for every selection emitted by `handleRunTest` from a
reachable component state, the variable count is at least 1, and at most the
declared arity when the selected test's arity is a fixed integer. -/
theorem emitted_selection_count_bounds {columnTypes : List (String × String)}
    {s : SelState} {sel : VariableSelection}
    (hreach : Reachable columnTypes s) (hrun : handleRunTest s = some sel) :
    1 ≤ sel.«variables».length ∧
    ∀ t : StatisticalTest,
      statisticalTests.find? (fun u => u.id == sel.testId) = some t →
      t.requirements.«variables» ≠ -1 →
      (sel.«variables».length : Int) ≤ t.requirements.«variables» := by
  obtain ⟨_, _, hbound⟩ := selInv_of_reachable hreach
  unfold handleRunTest at hrun
  split at hrun
  · cases hrun
  · next hcond =>
    push_neg at hcond
    obtain ⟨hne, hvars⟩ := hcond
    injection hrun with hrun
    subst hrun
    refine ⟨List.length_pos.mpr hvars, ?_⟩
    intro t hfind hfix
    exact hbound t hfind hfix

/-- C1 witness: from the reachable state with both columns ticked, the
emitted count is between 1 and the arity 2. -/
theorem emitted_selection_count_bounds_witness :
    1 ≤ emittedFullEx.«variables».length ∧
    (emittedFullEx.«variables».length : Int) ≤ independentTSpec.requirements.«variables» := by
  have hreach : Reachable ctEx sFullEx :=
    Reachable.varSelect "group" (Reachable.varSelect "score"
      (Reachable.testSelect "independent_t" Reachable.init (by decide)))
  have hrun : handleRunTest sFullEx = some emittedFullEx := by decide
  exact ⟨(emitted_selection_count_bounds hreach hrun).1,
    (emitted_selection_count_bounds hreach hrun).2 independentTSpec (by decide) (by decide)⟩

/-- C5: for a test of fixed arity, starting from the empty selection produced
by `handleTestSelect`, any sequence of `handleVariableSelect` calls keeps the
selection size at most the arity; and for an arity-1 test a variable click
replaces the current selection outright. -/
theorem fixed_arity_selection_bound :
    (∀ (s0 : SelState) (t : StatisticalTest) (vs : List String),
      statisticalTests.find? (fun u => u.id == t.id) = some t →
      t.requirements.«variables» ≠ -1 →
      ((vs.foldl handleVariableSelect (handleTestSelect s0 t.id)).selectedVariables.length : Int)
        ≤ t.requirements.«variables») ∧
    (∀ (s : SelState) (t : StatisticalTest) (v : String),
      statisticalTests.find? (fun u => u.id == s.selectedTest) = some t →
      t.requirements.«variables» = 1 →
      (handleVariableSelect s v).selectedVariables = [v]) := by
  constructor
  · intro s0 t vs hfind hfix
    have haux : ∀ (ws : List String) (a : SelState),
        a.selectedTest = t.id →
        (a.selectedVariables.length : Int) ≤ t.requirements.«variables» →
        ((ws.foldl handleVariableSelect a).selectedVariables.length : Int)
          ≤ t.requirements.«variables» := by
      intro ws
      induction ws with
      | nil => intro a _ hb; exact hb
      | cons w ws ih =>
        intro a hat hb
        rw [List.foldl_cons]
        refine ih _ (by rw [handleVariableSelect_selectedTest]; exact hat) ?_
        have hfind2 : statisticalTests.find? (fun u => u.id == a.selectedTest) = some t := by
          rw [hat]; exact hfind
        exact length_le_handleVariableSelect hfind2 hfix hb w
    refine haux vs _ rfl ?_
    have hmem := List.mem_of_find?_eq_some hfind
    rcases registry_fixed_arity_pos t hmem with h1 | h1
    · exact absurd h1 hfix
    · simp only [handleTestSelect, List.length_nil]
      omega
  · intro s t v hfind h1
    rw [handleVariableSelect_of_found v hfind, if_pos h1]

/-- C5 witness: three clicks after selecting the arity-2 independent t-test
leave at most 2 variables selected, and a click under the arity-1
Shapiro-Wilk test replaces the selection. -/
theorem fixed_arity_selection_bound_witness :
    ((["score", "group", "extra"].foldl handleVariableSelect
        (handleTestSelect initialSelState independentTSpec.id)).selectedVariables.length : Int)
      ≤ 2 ∧
    (handleVariableSelect
        { selectedTest := "shapiro_wilk", selectedVariables := ["score"], groupVariable := "" }
        "other").selectedVariables = ["other"] :=
  ⟨fixed_arity_selection_bound.1 initialSelState independentTSpec ["score", "group", "extra"]
      (by decide) (by decide),
   fixed_arity_selection_bound.2
      { selectedTest := "shapiro_wilk", selectedVariables := ["score"], groupVariable := "" }
      shapiroWilkSpec "other" (by decide) (by decide)⟩

/-- C9: for a selected test of arity at least 2 or unbounded, toggling the
same variable twice from any reachable state leaves the selected-variable
set unchanged. -/
theorem toggle_involution {columnTypes : List (String × String)} {s : SelState}
    (t : StatisticalTest) (v : String)
    (hreach : Reachable columnTypes s)
    (hfind : statisticalTests.find? (fun u => u.id == s.selectedTest) = some t)
    (harity : 2 ≤ t.requirements.«variables» ∨ t.requirements.«variables» = -1) :
    ∀ x, x ∈ (handleVariableSelect (handleVariableSelect s v) v).selectedVariables ↔
      x ∈ s.selectedVariables := by
  obtain ⟨_, _, hbound⟩ := selInv_of_reachable hreach
  have h1 : t.requirements.«variables» ≠ 1 := by rcases harity with h | h <;> omega
  by_cases hv : v ∈ s.selectedVariables
  · -- the first call removes `v`, the second adds it back
    have hc : s.selectedVariables.contains v = true := List.elem_iff.mpr hv
    have e1 : handleVariableSelect s v =
        { s with selectedVariables := s.selectedVariables.filter (fun x => x != v) } := by
      rw [handleVariableSelect_of_found v hfind, if_neg h1, if_pos hc]
    have hfindU : statisticalTests.find? (fun u => u.id ==
        ({ s with selectedVariables := s.selectedVariables.filter (fun x => x != v) }
          : SelState).selectedTest) = some t := hfind
    have hcon : ¬((s.selectedVariables.filter (fun x => x != v)).contains v = true) := by
      intro hcontra
      have := List.elem_iff.mp hcontra
      simp [List.mem_filter] at this
    have hcond : t.requirements.«variables» = -1 ∨
        (((s.selectedVariables.filter (fun x => x != v)).length : Int))
          < t.requirements.«variables» := by
      rcases harity with h2 | h2
      · right
        have hlt : (s.selectedVariables.filter (fun x => x != v)).length
            < s.selectedVariables.length :=
          List.length_filter_lt_length_iff_exists.mpr ⟨v, hv, by simp⟩
        have hb := hbound t hfind (by omega)
        calc ((s.selectedVariables.filter (fun x => x != v)).length : Int)
            < (s.selectedVariables.length : Int) := by exact_mod_cast hlt
          _ ≤ t.requirements.«variables» := hb
      · exact Or.inl h2
    have e2 : handleVariableSelect (handleVariableSelect s v) v =
        { s with selectedVariables :=
            s.selectedVariables.filter (fun x => x != v) ++ [v] } := by
      rw [e1, handleVariableSelect_of_found v hfindU, if_neg h1, if_neg hcon, if_pos hcond]
    intro x
    rw [e2]
    simp only [List.mem_append, List.mem_filter, List.mem_singleton, bne_iff_ne]
    constructor
    · rintro (⟨hxl, _⟩ | rfl)
      · exact hxl
      · exact hv
    · intro hxl
      by_cases hxv : x = v
      · exact Or.inr hxv
      · exact Or.inl ⟨hxl, hxv⟩
  · -- `v` is not selected: either add-then-remove, or twice a no-op
    have hc : ¬(s.selectedVariables.contains v = true) :=
      fun hcontra => hv (List.elem_iff.mp hcontra)
    by_cases hcond : t.requirements.«variables» = -1 ∨
        ((s.selectedVariables.length : Int)) < t.requirements.«variables»
    · have e1 : handleVariableSelect s v =
          { s with selectedVariables := s.selectedVariables ++ [v] } := by
        rw [handleVariableSelect_of_found v hfind, if_neg h1, if_neg hc, if_pos hcond]
      have hfindU : statisticalTests.find? (fun u => u.id ==
          ({ s with selectedVariables := s.selectedVariables ++ [v] }
            : SelState).selectedTest) = some t := hfind
      have hcU : ((s.selectedVariables ++ [v]).contains v) = true :=
        List.elem_iff.mpr (List.mem_append_right _ (List.mem_singleton_self v))
      have e2 : handleVariableSelect (handleVariableSelect s v) v =
          { s with selectedVariables :=
              (s.selectedVariables ++ [v]).filter (fun x => x != v) } := by
        rw [e1, handleVariableSelect_of_found v hfindU, if_neg h1, if_pos hcU]
      have hfilter : (s.selectedVariables ++ [v]).filter (fun x => x != v)
          = s.selectedVariables := by
        rw [List.filter_append]
        have hself : s.selectedVariables.filter (fun x => x != v) = s.selectedVariables :=
          List.filter_eq_self.mpr (fun a ha => bne_iff_ne.mpr (fun e => hv (e ▸ ha)))
        simp [hself]
      intro x
      rw [e2, hfilter]
    · have e1 : handleVariableSelect s v = s := by
        rw [handleVariableSelect_of_found v hfind, if_neg h1, if_neg hc, if_neg hcond]
      rw [e1, e1]
      exact fun x => Iff.rfl

/-- C9 witness: toggling `score` twice right after selecting the independent
t-test returns to the empty selection. -/
theorem toggle_involution_witness :
    ("score" ∈ (handleVariableSelect (handleVariableSelect s9Ex "score") "score").selectedVariables
      ↔ "score" ∈ s9Ex.selectedVariables) :=
  toggle_involution independentTSpec "score"
    (Reachable.testSelect "independent_t" Reachable.init (by decide) : Reachable ctEx s9Ex)
    (by decide) (Or.inl (by decide)) "score"

/-- C10: in every reachable component state the selected test id is empty or
registered; every selection emitted by `handleRunTest` carries a registered
test id; and `handleVariableSelect` is the identity whenever the current test
id is not found in the registry. -/
theorem selectedTest_always_registered :
    (∀ (columnTypes : List (String × String)) (s : SelState),
      Reachable columnTypes s →
      s.selectedTest = "" ∨ s.selectedTest ∈ statisticalTests.map StatisticalTest.id) ∧
    (∀ (columnTypes : List (String × String)) (s : SelState) (sel : VariableSelection),
      Reachable columnTypes s → handleRunTest s = some sel →
      sel.testId ∈ statisticalTests.map StatisticalTest.id) ∧
    (∀ (s : SelState) (v : String),
      statisticalTests.find? (fun u => u.id == s.selectedTest) = none →
      handleVariableSelect s v = s) := by
  refine ⟨?_, ?_, ?_⟩
  · intro columnTypes s h
    exact (selInv_of_reachable h).2.1
  · intro columnTypes s sel h hrun
    unfold handleRunTest at hrun
    split at hrun
    · cases hrun
    · next hcond =>
      push_neg at hcond
      injection hrun with hrun
      subst hrun
      rcases (selInv_of_reachable h).2.1 with he | hm
      · exact absurd he hcond.1
      · exact hm
  · intro s v hnone
    exact handleVariableSelect_of_none v hnone

/-- C10 witness: the reachable one-variable state carries a registered id,
and a state with a bogus test id is untouched by `handleVariableSelect`. -/
theorem selectedTest_always_registered_witness :
    (sEx.selectedTest = "" ∨ sEx.selectedTest ∈ statisticalTests.map StatisticalTest.id) ∧
    handleVariableSelect
        { selectedTest := "bogus", selectedVariables := [], groupVariable := "" } "score"
      = { selectedTest := "bogus", selectedVariables := [], groupVariable := "" } :=
  ⟨selectedTest_always_registered.1 ctEx sEx
      (Reachable.varSelect "score"
        (Reachable.testSelect "independent_t" Reachable.init (by decide))),
   selectedTest_always_registered.2.2
      { selectedTest := "bogus", selectedVariables := [], groupVariable := "" }
      "score" (by decide)⟩

/-- A dataset has a numeric column exactly when `numericColumns` is non-empty. -/
theorem numericColumns_pos_iff (columnTypes : List (String × String)) :
    0 < (numericColumns columnTypes).length ↔ ∃ c ∈ columnTypes, c.2 = "numeric" := by
  simp [numericColumns, List.length_pos_iff_exists_mem, List.mem_filter]

/-- A dataset has a categorical column exactly when `categoricalColumns` is
non-empty. -/
theorem categoricalColumns_pos_iff (columnTypes : List (String × String)) :
    0 < (categoricalColumns columnTypes).length ↔ ∃ c ∈ columnTypes, c.2 = "categorical" := by
  simp [categoricalColumns, List.length_pos_iff_exists_mem, List.mem_filter]

/-- C7: `getAvailableTests` returns, in registry declaration order (a sublist
of the registry), exactly the tests whose required numeric (resp.
categorical) slot types are backed by at least one column of that type. -/
theorem getAvailableTests_characterization (columnTypes : List (String × String)) :
    List.Sublist (getAvailableTests columnTypes) statisticalTests ∧
    ∀ t : StatisticalTest,
      t ∈ getAvailableTests columnTypes ↔
        t ∈ statisticalTests ∧
        ("numeric" ∈ t.requirements.variableTypes → ∃ c ∈ columnTypes, c.2 = "numeric") ∧
        ("categorical" ∈ t.requirements.variableTypes →
          ∃ c ∈ columnTypes, c.2 = "categorical") := by
  have hb : ∀ (a b hn hc : Bool),
      ((if a && !hn then false else if b && !hc then false else true) = true ↔
        ((a = true → hn = true) ∧ (b = true → hc = true))) := by decide
  constructor
  · unfold getAvailableTests
    exact List.filter_sublist _
  · intro t
    unfold getAvailableTests
    rw [List.mem_filter]
    dsimp only
    rw [hb]
    simp only [decide_eq_true_eq, List.elem_iff, numericColumns_pos_iff,
      categoricalColumns_pos_iff, gt_iff_lt]

/-- C7 witness: with one numeric and one categorical column, the Pearson
correlation (two numeric slots) is available. -/
theorem getAvailableTests_characterization_witness :
    pearsonSpec ∈ getAvailableTests ctEx :=
  ((getAvailableTests_characterization ctEx).2 pearsonSpec).mpr
    ⟨by decide, fun _ => ⟨("score", "numeric"), by decide, rfl⟩,
     fun h => absurd h (by decide)⟩

end Statease
